import Mathlib

/-!
Shallow embedding of the Stream Overlay SaaS backend (src/main.py and
src/schemas.py) for verifying its specification.

The persistence layer is a MongoDB-style document store with one collection
per entity; collections are modelled as Lean lists of documents in insertion
order, `find_one` as `List.find?`, `update_one`/`delete_one` as first-match
update/erase. Documents created by this application always carry a string
`_id` and never a literal top-level `id` field, so the source's
`find_one({"_id": x}) or find_one({"id": x})` fallbacks are modelled as a
single lookup on `_id`. Fresh random values (MongoDB ids, `secrets`
tokens) are passed to each operation as explicit parameters.
-/

/-- a user document, per the `User` schema in src/schemas.py. Fields not
read by any handler (role, locale, timestamps, twitch id) are omitted.
`plan` and `auth_token` are optional because handlers access them with
`user.get(...)`. -/
structure UserDoc where
  _id : String
  email : String
  password_hash : Option String
  plan : Option String
  auth_token : Option String
deriving DecidableEq, Repr

/-- an overlay document, per the `Overlay` schema in src/schemas.py. -/
structure OverlayDoc where
  _id : String
  owner_user_id : String
  name : String
  width : Int
  height : Int
  secret_token : String
deriving DecidableEq, Repr

/-- a widget document, per the `Widget` schema in src/schemas.py. The two
`Dict[str, Any]` fields are modelled as string-to-string association
lists; no handler inspects their contents. -/
structure WidgetDoc where
  _id : String
  overlay_id : String
  type : String
  x : Int
  y : Int
  width : Int
  height : Int
  z_index : Int
  logic_config : List (String × String)
  cosmetic_skin_id : Option String
  cosmetic_overrides : List (String × String)
deriving DecidableEq, Repr

/-- a feature-flag override row stored in the `featureflag` collection.
`allowed` is optional because `can_use_widget_type` reads it with
`flag.get("allowed", False)`. -/
structure FeatureFlagDoc where
  feature_key : String
  plan_name : String
  allowed : Option Bool
deriving DecidableEq, Repr

/-- an in-memory `FeatureFlag` pydantic object as used in the
`DEFAULT_FEATURES` list (src/main.py lines 127-137); `allowed` is always
present on a pydantic model. -/
structure FeatureFlag where
  feature_key : String
  plan_name : String
  allowed : Bool
deriving DecidableEq, Repr

/-- the document store: one list per collection used by the handlers the
claims are about. -/
structure DB where
  users : List UserDoc
  overlays : List OverlayDoc
  widgets : List WidgetDoc
  featureflags : List FeatureFlagDoc
deriving DecidableEq, Repr

/-- an HTTPException raised by a handler: status code and detail string. -/
structure HTTPError where
  status : Nat
  detail : String
deriving DecidableEq, Repr

/-- the body of a successful auth response. -/
structure AuthResponse where
  token : String
  user_id : String
deriving DecidableEq, Repr

/-- the request body of POST /widgets (`CreateWidgetRequest` in
src/main.py lines 43-53). -/
structure CreateWidgetRequest where
  overlay_id : String
  type : String
  x : Int
  y : Int
  width : Int
  height : Int
  z_index : Int
  logic_config : List (String × String)
  cosmetic_skin_id : Option String
  cosmetic_overrides : List (String × String)
deriving DecidableEq, Repr

/-- the `updates` map of PATCH /widgets/{id}: an arbitrary partial field
map applied verbatim with `$set`. A Python dict that contains key `k`
is modelled by field `k` being `some v`; an absent key by `none`.
MongoDB rejects `$set` on `_id`, so `_id` has no entry. -/
structure WidgetUpdates where
  overlay_id : Option String
  type : Option String
  x : Option Int
  y : Option Int
  width : Option Int
  height : Option Int
  z_index : Option Int
  logic_config : Option (List (String × String))
  cosmetic_skin_id : Option (Option String)
  cosmetic_overrides : Option (List (String × String))
deriving DecidableEq, Repr

/-- the response body of the public overlay endpoint GET /o/{id}/{secret}. -/
structure PublicOverlay where
  id : String
  name : String
  width : Int
  height : Int
  widgets : List WidgetDoc
deriving DecidableEq, Repr

/-- Python `str.replace(pat, repl)` on character lists: replace every
non-overlapping occurrence of `pat`, scanning left to right. Structural
recursion on a fuel argument (instantiated with the length of the string,
enough for any non-empty pattern) so the definition reduces in the kernel. -/
def pyReplaceAux (pat repl : List Char) : Nat → List Char → List Char
  | 0, l => l
  | _ + 1, [] => []
  | fuel + 1, c :: cs =>
    if (c :: cs).take pat.length = pat then
      repl ++ pyReplaceAux pat repl fuel ((c :: cs).drop pat.length)
    else
      c :: pyReplaceAux pat repl fuel cs

/-- Python `s.replace(pat, repl)` for a non-empty pattern. -/
def pyReplace (s pat repl : String) : String :=
  ⟨pyReplaceAux pat.data repl.data s.data.length s.data⟩

/-- the hexadecimal digit for `n < 16`, lowercase, as produced by
`secrets.token_hex`. -/
def hexDigit (n : Nat) : Char :=
  if n < 10 then Char.ofNat (48 + n) else Char.ofNat (87 + n)

/-- the two-character lowercase hex rendering of one byte. -/
def byteHex (b : Nat) : List Char :=
  [hexDigit (b / 16 % 16), hexDigit (b % 16)]

/-- Python `secrets.token_hex(n)` modelled over its random byte source: a
list of `n` random bytes rendered as `2 * n` lowercase hex characters. -/
def token_hex (bytes : List Nat) : String :=
  ⟨(bytes.map byteHex).flatten⟩

/-- membership in the lowercase hexadecimal alphabet: a decimal digit or
a letter between a and f. -/
def isHexDigit (c : Char) : Bool :=
  (48 ≤ c.toNat && c.toNat ≤ 57) || (97 ≤ c.toNat && c.toNat ≤ 102)

/-- the `get_current_user` dependency (src/main.py lines 62-69): 401 when
the Authorization header is missing; otherwise Python-`replace` away
`"Bearer "` and look up the first user whose `auth_token` equals the
result, 401 when none does. -/
def get_current_user (db : DB) (authorization : Option String) : Except HTTPError UserDoc :=
  match authorization with
  | none => .error ⟨401, "Missing Authorization header"⟩
  | some a =>
    let token := pyReplace a "Bearer " ""
    match db.users.find? (fun u => u.auth_token == some token) with
    | none => .error ⟨401, "Invalid token"⟩
    | some u => .ok u

/-- the `signup` handler (src/main.py lines 104-112). `freshToken` stands
for `secrets.token_hex(16)` and `freshId` for the id assigned by
`create_document`. The stored user has `password_hash` set to the raw
password and pydantic defaults `plan = "free"`. Returns the response (or
error) together with the resulting store. -/
def signup (db : DB) (email pw freshToken freshId : String) :
    Except HTTPError AuthResponse × DB :=
  match db.users.find? (fun u => u.email == email) with
  | some _ => (.error ⟨400, "Email already registered"⟩, db)
  | none =>
    let user : UserDoc :=
      { _id := freshId, email := email, password_hash := some pw,
        plan := some "free", auth_token := some freshToken }
    (.ok { token := freshToken, user_id := freshId },
     { db with users := db.users ++ [user] })

/-- update of the first user whose `_id` matches, setting `auth_token`
(the `update_one` call in `signin`). -/
def setAuthToken : List UserDoc → String → String → List UserDoc
  | [], _, _ => []
  | u :: rest, id, tok =>
    if u._id == id then { u with auth_token := some tok } :: rest
    else u :: setAuthToken rest id tok

/-- the `signin` handler (src/main.py lines 115-123). `fresh` stands for
`secrets.token_hex(16)`. Python truthiness: `user.get("auth_token") or
fresh` yields `fresh` when the stored token is absent or the empty
string, and `if not user.get("auth_token")` backfills in exactly those
cases. -/
def signin (db : DB) (email pw fresh : String) : Except HTTPError AuthResponse × DB :=
  match db.users.find? (fun u => u.email == email && u.password_hash == some pw) with
  | none => (.error ⟨401, "Invalid credentials"⟩, db)
  | some user =>
    let token :=
      match user.auth_token with
      | some t => if t = "" then fresh else t
      | none => fresh
    let needsBackfill :=
      match user.auth_token with
      | some t => t == ""
      | none => true
    if needsBackfill then
      (.ok { token := token, user_id := user._id },
       { db with users := setAuthToken db.users user._id token })
    else
      (.ok { token := token, user_id := user._id }, db)

/-- the hardcoded plan defaults `DEFAULT_FEATURES` (src/main.py
lines 127-137). -/
def DEFAULT_FEATURES : List FeatureFlag :=
  [ ⟨"widget.text", "free", true⟩,
    ⟨"widget.timer", "free", true⟩,
    ⟨"widget.countdown", "free", true⟩,
    ⟨"widget.youtube", "pro", true⟩,
    ⟨"widget.goal", "pro", true⟩,
    ⟨"widget.twitch_alert", "pro", true⟩,
    ⟨"widget.minigame_trivia", "pro", true⟩,
    ⟨"widget.minigame_poll", "pro", true⟩,
    ⟨"widget.leaderboard", "pro", true⟩ ]

/-- the feature gate `can_use_widget_type` (src/main.py lines 140-151):
DB override row first (its `allowed`, read with default `False`, is
authoritative), then the first matching default, else `False`. -/
def can_use_widget_type (db : DB) (user : UserDoc) (widget_type : String) : Bool :=
  let plan := user.plan.getD "free"
  let feature_key := "widget." ++ widget_type
  match db.featureflags.find? (fun f => f.feature_key == feature_key && f.plan_name == plan) with
  | some flag => flag.allowed.getD false
  | none =>
    match DEFAULT_FEATURES.find? (fun f => f.feature_key == feature_key && f.plan_name == plan) with
    | some f => f.allowed
    | none => false

/-- the widget document built by `create_widget` from its payload,
`Widget(**payload.model_dump())`, with the store-assigned id. -/
def widget_of_payload (payload : CreateWidgetRequest) (freshId : String) : WidgetDoc :=
  { _id := freshId, overlay_id := payload.overlay_id, type := payload.type,
    x := payload.x, y := payload.y, width := payload.width, height := payload.height,
    z_index := payload.z_index, logic_config := payload.logic_config,
    cosmetic_skin_id := payload.cosmetic_skin_id,
    cosmetic_overrides := payload.cosmetic_overrides }

/-- the `create_widget` handler (src/main.py lines 212-218): 402 when the
feature gate denies the payload type, otherwise insert the widget built
from the payload and return the new id. No overlay lookup is performed. -/
def create_widget (db : DB) (user : UserDoc) (payload : CreateWidgetRequest)
    (freshId : String) : Except HTTPError String × DB :=
  if can_use_widget_type db user payload.type then
    (.ok freshId, { db with widgets := db.widgets ++ [widget_of_payload payload freshId] })
  else
    (.error ⟨402, "Upgrade plan to use this widget"⟩, db)

/-- MongoDB `$set` with the given partial field map on one widget
document: every key present in the map overwrites the stored field. -/
def applySet (w : WidgetDoc) (u : WidgetUpdates) : WidgetDoc :=
  { _id := w._id,
    overlay_id := u.overlay_id.getD w.overlay_id,
    type := u.type.getD w.type,
    x := u.x.getD w.x,
    y := u.y.getD w.y,
    width := u.width.getD w.width,
    height := u.height.getD w.height,
    z_index := u.z_index.getD w.z_index,
    logic_config := u.logic_config.getD w.logic_config,
    cosmetic_skin_id := u.cosmetic_skin_id.getD w.cosmetic_skin_id,
    cosmetic_overrides := u.cosmetic_overrides.getD w.cosmetic_overrides }

/-- `update_one({"_id": id}, {"$set": updates})` on the widget
collection: apply the `$set` to the first document whose `_id` matches. -/
def applyUpdateById : List WidgetDoc → String → WidgetUpdates → List WidgetDoc
  | [], _, _ => []
  | w :: rest, id, upd =>
    if w._id == id then applySet w upd :: rest
    else w :: applyUpdateById rest id upd

/-- the `update_widget` handler (src/main.py lines 221-232): 404 when no
widget matches, 403 when the parent overlay is absent or owned by
someone else, otherwise `$set` the updates map verbatim. -/
def update_widget (db : DB) (user : UserDoc) (widget_id : String)
    (updates : WidgetUpdates) : Except HTTPError Unit × DB :=
  match db.widgets.find? (fun w => w._id == widget_id) with
  | none => (.error ⟨404, "Widget not found"⟩, db)
  | some doc =>
    match db.overlays.find? (fun o => o._id == doc.overlay_id) with
    | none => (.error ⟨403, "Forbidden"⟩, db)
    | some overlay =>
      if overlay.owner_user_id == user._id then
        (.ok (), { db with widgets := applyUpdateById db.widgets doc._id updates })
      else
        (.error ⟨403, "Forbidden"⟩, db)

/-- Modelled from the spec: the overlay lookup of `delete_overlay`
(src/main.py line 179) goes through the document-store adapter
`database.py`, which is not part of src/; per the spec the handler
"fails Not-Found if absent" and otherwise operates on the overlay with
the given id, so the ObjectId-coercing first lookup and its
string-compare fallback are modelled as one lookup on `_id`. The rest
follows src/main.py lines 177-188: 403 unless the caller owns it, then
`delete_one` removes that document; widgets are not touched. -/
def delete_overlay (db : DB) (user : UserDoc) (overlay_id : String) :
    Except HTTPError Unit × DB :=
  match db.overlays.find? (fun o => o._id == overlay_id) with
  | none => (.error ⟨404, "Overlay not found"⟩, db)
  | some doc =>
    if doc.owner_user_id == user._id then
      (.ok (), { db with overlays := db.overlays.eraseP (fun o => o._id == doc._id) })
    else
      (.error ⟨403, "Forbidden"⟩, db)

/-- the public overlay endpoint `get_overlay_public` (src/main.py
lines 236-251): 404 when the overlay is absent or the secret differs
from its `secret_token`; on success, dimensions plus every widget whose
`overlay_id` matches. -/
def get_overlay_public (db : DB) (overlay_id secret : String) :
    Except HTTPError PublicOverlay :=
  match db.overlays.find? (fun o => o._id == overlay_id) with
  | none => .error ⟨404, "Not found"⟩
  | some overlay =>
    if overlay.secret_token == secret then
      .ok { id := overlay._id, name := overlay.name, width := overlay.width,
            height := overlay.height,
            widgets := db.widgets.filter (fun w => w.overlay_id == overlay_id) }
    else
      .error ⟨404, "Not found"⟩

/-! Concrete fixtures used by witnesses and counterexamples. -/

/-- a stored free-plan user. -/
def userFree : UserDoc :=
  { _id := "u_free", email := "free@example.com", password_hash := some "pw",
    plan := some "free", auth_token := some "tokF" }

/-- a stored pro-plan user. -/
def userPro : UserDoc :=
  { _id := "u_pro", email := "pro@example.com", password_hash := some "pw",
    plan := some "pro", auth_token := some "tokP" }

/-- a store with both users and no feature-flag override rows. -/
def dbNoFlags : DB :=
  { users := [userFree, userPro], overlays := [], widgets := [], featureflags := [] }

/-- the store with an override row granting widget.youtube to the free plan. -/
def dbYoutubeOverride : DB :=
  { dbNoFlags with featureflags := [⟨"widget.youtube", "free", some true⟩] }

/-- a POST /widgets payload for a youtube widget on overlay ov1. -/
def payloadYoutube : CreateWidgetRequest :=
  { overlay_id := "ov1", type := "youtube", x := 0, y := 0, width := 300,
    height := 100, z_index := 0, logic_config := [], cosmetic_skin_id := none,
    cosmetic_overrides := [] }

/-- an overlay owned by a user id distinct from every fixture user. -/
def overlayOther : OverlayDoc :=
  { _id := "ov1", owner_user_id := "someone_else", name := "Main",
    width := 1920, height := 1080, secret_token := "s3cret" }

/-- a store in which the only overlay belongs to a third party. -/
def dbOtherOverlay : DB :=
  { users := [userPro], overlays := [overlayOther], widgets := [], featureflags := [] }

/-- C1: the feature gate resolves an override row first (its allowed boolean
is authoritative), then the static default table, and denies when neither
matches; concretely pro/youtube is allowed by default, free/youtube is
denied by default, and an override row (widget.youtube, free, allowed=true)
makes the free-plan call return true. -/
theorem can_use_widget_type_resolution :
    (∀ (db : DB) (user : UserDoc) (wt : String) (f : FeatureFlagDoc) (b : Bool),
        db.featureflags.find?
            (fun g => g.feature_key == "widget." ++ wt && g.plan_name == user.plan.getD "free") =
          some f →
        f.allowed = some b →
        can_use_widget_type db user wt = b)
    ∧ (∀ (db : DB) (user : UserDoc) (wt : String) (d : FeatureFlag),
        db.featureflags.find?
            (fun g => g.feature_key == "widget." ++ wt && g.plan_name == user.plan.getD "free") =
          none →
        DEFAULT_FEATURES.find?
            (fun g => g.feature_key == "widget." ++ wt && g.plan_name == user.plan.getD "free") =
          some d →
        can_use_widget_type db user wt = d.allowed)
    ∧ (∀ (db : DB) (user : UserDoc) (wt : String),
        db.featureflags.find?
            (fun g => g.feature_key == "widget." ++ wt && g.plan_name == user.plan.getD "free") =
          none →
        DEFAULT_FEATURES.find?
            (fun g => g.feature_key == "widget." ++ wt && g.plan_name == user.plan.getD "free") =
          none →
        can_use_widget_type db user wt = false)
    ∧ can_use_widget_type dbNoFlags userPro "youtube" = true
    ∧ can_use_widget_type dbNoFlags userFree "youtube" = false
    ∧ can_use_widget_type dbYoutubeOverride userFree "youtube" = true := by
  refine ⟨?_, ?_, ?_, by decide, by decide, by decide⟩
  · intro db user wt f b h1 h2
    simp [can_use_widget_type, h1, h2]
  · intro db user wt d h1 h2
    simp [can_use_widget_type, h1, h2]
  · intro db user wt h1 h2
    simp [can_use_widget_type, h1, h2]

/-- C1 witness: the override conjunct applied to the concrete override
store. -/
theorem can_use_widget_type_resolution_witness :
    can_use_widget_type dbYoutubeOverride userFree "youtube" = true :=
  can_use_widget_type_resolution.1 dbYoutubeOverride userFree "youtube"
    ⟨"widget.youtube", "free", some true⟩ true (by decide) rfl

/-- C10: each feature key appears for exactly one plan in the default
table, and with no override rows a pro user is denied the free-tier
widget types text, timer and countdown, which the free plan is granted. -/
theorem default_features_one_plan_per_type :
    (DEFAULT_FEATURES.map (fun f => f.feature_key)).Nodup
    ∧ can_use_widget_type dbNoFlags userPro "text" = false
    ∧ can_use_widget_type dbNoFlags userPro "timer" = false
    ∧ can_use_widget_type dbNoFlags userPro "countdown" = false
    ∧ can_use_widget_type dbNoFlags userFree "text" = true
    ∧ can_use_widget_type dbNoFlags userFree "timer" = true
    ∧ can_use_widget_type dbNoFlags userFree "countdown" = true := by
  decide

/-- C4: when the feature gate denies the payload type, create_widget
returns 402 Payment-Required and the store, in particular the widget
collection, is unchanged. -/
theorem create_widget_denied_payment_required :
    ∀ (db : DB) (user : UserDoc) (payload : CreateWidgetRequest) (freshId : String),
      can_use_widget_type db user payload.type = false →
      create_widget db user payload freshId =
        (.error ⟨402, "Upgrade plan to use this widget"⟩, db) := by
  intro db user payload freshId h
  simp [create_widget, h]

/-- C4 witness: a free user creating a youtube widget is refused with 402
and the store is returned untouched. -/
theorem create_widget_denied_payment_required_witness :
    create_widget dbNoFlags userFree payloadYoutube "w9" =
      (.error ⟨402, "Upgrade plan to use this widget"⟩, dbNoFlags) :=
  create_widget_denied_payment_required dbNoFlags userFree payloadYoutube "w9" (by decide)

/-- C3: when the feature gate allows the payload type, create_widget
appends exactly the widget built from the payload, whose overlay_id is
the payload overlay_id, and returns the fresh id; the hypotheses never
mention the overlay collection, so no ownership check is involved and
the result holds for stores where the overlay belongs to someone else or
does not exist at all. -/
theorem create_widget_no_overlay_ownership_check :
    ∀ (db : DB) (user : UserDoc) (payload : CreateWidgetRequest) (freshId : String),
      can_use_widget_type db user payload.type = true →
      create_widget db user payload freshId =
          (.ok freshId, { db with widgets := db.widgets ++ [widget_of_payload payload freshId] })
        ∧ (widget_of_payload payload freshId).overlay_id = payload.overlay_id := by
  intro db user payload freshId h
  exact ⟨by simp [create_widget, h], rfl⟩

/-- C3 witness: a pro user persists a youtube widget on overlay ov1 even
though ov1 is owned by a third party. -/
theorem create_widget_no_overlay_ownership_check_witness :
    create_widget dbOtherOverlay userPro payloadYoutube "w1" =
        (.ok "w1", { dbOtherOverlay with widgets := [widget_of_payload payloadYoutube "w1"] })
      ∧ (widget_of_payload payloadYoutube "w1").overlay_id = "ov1" :=
  create_widget_no_overlay_ownership_check dbOtherOverlay userPro payloadYoutube "w1" (by decide)

/-- helper: a list that decomposes into a failing head segment, a hit, and
a tail is found at the hit. -/
theorem find?_of_decomposition {α : Type} (p : α → Bool) (l₁ l₂ : List α) (a : α)
    (h1 : ∀ b ∈ l₁, p b = false) (h2 : p a = true) :
    (l₁ ++ a :: l₂).find? p = some a := by
  induction l₁ with
  | nil => simp [List.find?_cons_of_pos, h2]
  | cons c cs ih =>
    have hc : p c = false := h1 c (by simp)
    simp only [List.cons_append, List.find?_cons, hc]
    exact ih (fun b hb => h1 b (by simp [hb]))

/-- helper: erasing the first hit of such a decomposition removes exactly
the hit. -/
theorem eraseP_of_decomposition {α : Type} (p : α → Bool) (l₁ l₂ : List α) (a : α)
    (h1 : ∀ b ∈ l₁, p b = false) (h2 : p a = true) :
    (l₁ ++ a :: l₂).eraseP p = l₁ ++ l₂ := by
  induction l₁ with
  | nil => simp [List.eraseP_cons_of_pos, h2]
  | cons c cs ih =>
    have hc : p c = false := h1 c (by simp)
    simp only [List.cons_append, List.eraseP_cons, hc, cond_false]
    rw [ih (fun b hb => h1 b (by simp [hb]))]

/-- C5: the public overlay endpoint succeeds exactly when the overlay
with the given id is stored and the supplied secret equals its
secret_token; on success it returns the dimensions and precisely the
widgets of that overlay, and both failure cases (absent overlay, wrong
secret) produce the identical 404 Not-found error, so no partial widget
data is ever returned. -/
theorem get_overlay_public_secret_gate :
    ∀ (db : DB) (oid secret : String),
      ((∃ o, db.overlays.find? (fun x => x._id == oid) = some o ∧ o.secret_token = secret) ↔
        ∃ r, get_overlay_public db oid secret = .ok r)
      ∧ (∀ o, db.overlays.find? (fun x => x._id == oid) = some o → o.secret_token = secret →
          get_overlay_public db oid secret =
            .ok { id := o._id, name := o.name, width := o.width, height := o.height,
                  widgets := db.widgets.filter (fun w => w.overlay_id == oid) })
      ∧ (db.overlays.find? (fun x => x._id == oid) = none →
          get_overlay_public db oid secret = .error ⟨404, "Not found"⟩)
      ∧ (∀ o, db.overlays.find? (fun x => x._id == oid) = some o → o.secret_token ≠ secret →
          get_overlay_public db oid secret = .error ⟨404, "Not found"⟩) := by
  intro db oid secret
  refine ⟨⟨?_, ?_⟩, ?_, ?_, ?_⟩
  · rintro ⟨o, h1, h2⟩
    exact ⟨{ id := o._id, name := o.name, width := o.width, height := o.height,
             widgets := db.widgets.filter (fun w => w.overlay_id == oid) },
           by simp [get_overlay_public, h1, h2]⟩
  · rintro ⟨r, hr⟩
    cases hfind : db.overlays.find? (fun x => x._id == oid) with
    | none => simp [get_overlay_public, hfind] at hr
    | some o =>
      refine ⟨o, rfl, ?_⟩
      by_cases hsec : o.secret_token = secret
      · exact hsec
      · simp [get_overlay_public, hfind, hsec] at hr
  · intro o h1 h2
    simp [get_overlay_public, h1, h2]
  · intro h1
    simp [get_overlay_public, h1]
  · intro o h1 h2
    simp [get_overlay_public, h1, h2]

/-- C5 witness: the exact-secret success case on a concrete store holding
one widget on the overlay and one on another overlay. -/
theorem get_overlay_public_secret_gate_witness :
    get_overlay_public
        { users := [], overlays := [overlayOther], featureflags := [],
          widgets := [widget_of_payload payloadYoutube "w1",
                      { widget_of_payload payloadYoutube "w3" with overlay_id := "elsewhere" }] }
        "ov1" "s3cret" =
      .ok { id := "ov1", name := "Main", width := 1920, height := 1080,
            widgets := [widget_of_payload payloadYoutube "w1"] } :=
  (get_overlay_public_secret_gate
      { users := [], overlays := [overlayOther], featureflags := [],
        widgets := [widget_of_payload payloadYoutube "w1",
                    { widget_of_payload payloadYoutube "w3" with overlay_id := "elsewhere" }] }
      "ov1" "s3cret").2.1 overlayOther (by decide) (by decide)

/-- an overlay owned by the pro fixture user. -/
def overlayMine : OverlayDoc :=
  { _id := "ov2", owner_user_id := "u_pro", name := "Mine",
    width := 1280, height := 720, secret_token := "sec2" }

/-- a widget placed on overlayMine. -/
def widgetOnMine : WidgetDoc :=
  { _id := "w2", overlay_id := "ov2", type := "text", x := 1, y := 2,
    width := 300, height := 100, z_index := 0, logic_config := [],
    cosmetic_skin_id := none, cosmetic_overrides := [] }

/-- a store holding a third-party overlay, the pro user's overlay, and a
widget on the latter. -/
def dbForDelete : DB :=
  { users := [userPro], overlays := [overlayOther, overlayMine],
    widgets := [widgetOnMine], featureflags := [] }

/-- C9: delete_overlay returns 404 when no overlay matches the id and 403
when the caller does not own it, leaving the store untouched; on success
it removes exactly the matched overlay document, and in every case the
widget collection (and the user collection) is unchanged, so widgets
referencing the deleted overlay remain stored. -/
theorem delete_overlay_effects :
    ∀ (db : DB) (user : UserDoc) (oid : String),
      (db.overlays.find? (fun o => o._id == oid) = none →
        delete_overlay db user oid = (.error ⟨404, "Overlay not found"⟩, db))
      ∧ (∀ doc, db.overlays.find? (fun o => o._id == oid) = some doc →
          doc.owner_user_id ≠ user._id →
          delete_overlay db user oid = (.error ⟨403, "Forbidden"⟩, db))
      ∧ (∀ doc l₁ l₂, db.overlays = l₁ ++ doc :: l₂ →
          (∀ b ∈ l₁, (b._id == oid) = false) →
          doc._id = oid →
          doc.owner_user_id = user._id →
          delete_overlay db user oid = (.ok (), { db with overlays := l₁ ++ l₂ }))
      ∧ (delete_overlay db user oid).2.widgets = db.widgets
      ∧ (delete_overlay db user oid).2.users = db.users := by
  intro db user oid
  have frame : (delete_overlay db user oid).2.widgets = db.widgets
      ∧ (delete_overlay db user oid).2.users = db.users := by
    cases hfind : db.overlays.find? (fun o => o._id == oid) with
    | none => simp [delete_overlay, hfind]
    | some doc =>
      by_cases howner : doc.owner_user_id = user._id
      · simp [delete_overlay, hfind, howner]
      · simp [delete_overlay, hfind, howner]
  refine ⟨?_, ?_, ?_, frame.1, frame.2⟩
  · intro h
    simp [delete_overlay, h]
  · intro doc h howner
    simp [delete_overlay, h, howner]
  · intro doc l₁ l₂ hdec hl₁ hid howner
    have hfind : db.overlays.find? (fun o => o._id == oid) = some doc := by
      rw [hdec]
      exact find?_of_decomposition _ l₁ l₂ doc hl₁ (by simp [hid])
    have herase : db.overlays.eraseP (fun o => o._id == doc._id) = l₁ ++ l₂ := by
      rw [hdec]
      refine eraseP_of_decomposition _ l₁ l₂ doc ?_ (by simp)
      intro b hb
      rw [hid]
      exact hl₁ b hb
    simp [delete_overlay, hfind, howner, herase]

/-- C9 witness: deleting the pro user's overlay removes only that overlay
and leaves the widget on it stored. -/
theorem delete_overlay_effects_witness :
    delete_overlay dbForDelete userPro "ov2" =
      (.ok (), { dbForDelete with overlays := [overlayOther] }) :=
  (delete_overlay_effects dbForDelete userPro "ov2").2.2.1 overlayMine
    [overlayOther] [] (by decide) (by decide) (by decide) (by decide)

/-- an updates map whose only key is type, set to youtube. -/
def updatesSetType : WidgetUpdates :=
  { overlay_id := none, type := some "youtube", x := none, y := none,
    width := none, height := none, z_index := none, logic_config := none,
    cosmetic_skin_id := none, cosmetic_overrides := none }

/-- an updates map whose only key is x. -/
def updatesMoveX : WidgetUpdates :=
  { overlay_id := none, type := none, x := some 5, y := none,
    width := none, height := none, z_index := none, logic_config := none,
    cosmetic_skin_id := none, cosmetic_overrides := none }

/-- C2 counterexample: a successful update_widget call by the owner whose
updates map contains the type key changes the stored type of the widget
from text to youtube, refuting that no successful update changes it. -/
theorem update_widget_changes_type_counterexample :
    dbForDelete.widgets.map (fun w => w.type) = ["text"]
    ∧ update_widget dbForDelete userPro "w2" updatesSetType =
        (.ok (), { dbForDelete with widgets := [{ widgetOnMine with type := "youtube" }] })
    ∧ ({ widgetOnMine with type := "youtube" } : WidgetDoc).type ≠ "text" :=
  ⟨rfl, rfl, by decide⟩

/-- helper: a `$set` whose map has no type key preserves every stored
widget type. -/
theorem applyUpdateById_map_type (ws : List WidgetDoc) (id : String) (upd : WidgetUpdates)
    (h : upd.type = none) :
    (applyUpdateById ws id upd).map (fun w => w.type) = ws.map (fun w => w.type) := by
  induction ws with
  | nil => simp [applyUpdateById]
  | cons w rest ih =>
    by_cases hw : (w._id == id) = true
    · simp [applyUpdateById, hw, applySet, h]
    · simp only [applyUpdateById, Bool.not_eq_true] at hw ⊢
      simp [hw, ih]

/-- C2 amended: update_widget leaves every stored widget type unchanged
exactly as long as the updates map does not contain the type key; a map
that does contain it overwrites the stored type (see the
counterexample). -/
theorem update_widget_type_preserved_without_type_key :
    ∀ (db : DB) (user : UserDoc) (wid : String) (upd : WidgetUpdates),
      upd.type = none →
      (update_widget db user wid upd).2.widgets.map (fun w => w.type)
        = db.widgets.map (fun w => w.type) := by
  intro db user wid upd h
  cases hfind : db.widgets.find? (fun w => w._id == wid) with
  | none => simp [update_widget, hfind]
  | some doc =>
    cases hov : db.overlays.find? (fun o => o._id == doc.overlay_id) with
    | none => simp [update_widget, hfind, hov]
    | some overlay =>
      by_cases howner : overlay.owner_user_id = user._id
      · simp [update_widget, hfind, hov, howner, applyUpdateById_map_type _ _ _ h]
      · simp [update_widget, hfind, hov, howner]

/-- C2 amended witness: moving a widget without a type key leaves the
stored types untouched. -/
theorem update_widget_type_preserved_without_type_key_witness :
    (update_widget dbForDelete userPro "w2" updatesMoveX).2.widgets.map (fun w => w.type)
      = dbForDelete.widgets.map (fun w => w.type) :=
  update_widget_type_preserved_without_type_key dbForDelete userPro "w2" updatesMoveX rfl

/-- the behaviour claim C6 ascribes to the authentication dependency:
strip "Bearer " only when it occurs as a prefix of the header value and
otherwise pass the header through unmodified, then look up the user by
exact token match. Defined over character lists so it reduces in the
kernel. -/
def get_current_user_claimedC6 (db : DB) (authorization : Option String) :
    Except HTTPError UserDoc :=
  match authorization with
  | none => .error ⟨401, "Missing Authorization header"⟩
  | some a =>
    let bearer : List Char := "Bearer ".data
    let token : String :=
      if a.data.take bearer.length = bearer then ⟨a.data.drop bearer.length⟩ else a
    match db.users.find? (fun u => u.auth_token == some token) with
    | none => .error ⟨401, "Invalid token"⟩
    | some u => .ok u

/-- a user whose token coincides with the header abcBearer def after
Python replace removes the inner occurrence of "Bearer ". -/
def userReplaced : UserDoc :=
  { _id := "u_r", email := "r@example.com", password_hash := some "pw",
    plan := some "free", auth_token := some "abcdef" }

/-- a store holding only userReplaced. -/
def dbReplaced : DB :=
  { users := [userReplaced], overlays := [], widgets := [], featureflags := [] }

/-- C6 counterexample: on the header abcBearer def, where "Bearer " is
not a prefix, the code removes the inner occurrence and authenticates
the user whose token is abcdef, while the claimed pass-through behaviour
rejects the request; the remainder of the header is not passed through
unmodified. -/
theorem get_current_user_strip_counterexample :
    get_current_user dbReplaced (some "abcBearer def") = .ok userReplaced
    ∧ get_current_user_claimedC6 dbReplaced (some "abcBearer def") =
        .error ⟨401, "Invalid token"⟩ :=
  ⟨rfl, rfl⟩

/-- C6 amended: authenticate removes every occurrence of the substring
"Bearer " from the header value (Python str.replace, not a prefix strip)
and looks up the user whose auth_token exactly equals the result; it
fails 401 when the header is missing or when no user token matches. -/
theorem get_current_user_replace_all :
    ∀ (db : DB),
      get_current_user db none = .error ⟨401, "Missing Authorization header"⟩
      ∧ (∀ a, db.users.find? (fun u => u.auth_token == some (pyReplace a "Bearer " "")) = none →
          get_current_user db (some a) = .error ⟨401, "Invalid token"⟩)
      ∧ (∀ a u, db.users.find? (fun u => u.auth_token == some (pyReplace a "Bearer " "")) = some u →
          get_current_user db (some a) = .ok u) := by
  intro db
  refine ⟨rfl, ?_, ?_⟩
  · intro a h
    simp [get_current_user, h]
  · intro a u h
    simp [get_current_user, h]

/-- C6 amended witness: the ordinary Bearer-prefixed header authenticates
the stored free user. -/
theorem get_current_user_replace_all_witness :
    get_current_user dbNoFlags (some "Bearer tokF") = .ok userFree :=
  (get_current_user_replace_all dbNoFlags).2.2 "Bearer tokF" userFree (by decide)

/-- helper: token_hex renders each byte as two characters. -/
theorem token_hex_length (bs : List Nat) : (token_hex bs).length = 2 * bs.length := by
  induction bs with
  | nil => rfl
  | cons b rest ih =>
    simp only [token_hex, String.length, List.map_cons, List.flatten_cons,
      List.length_append, List.length_cons] at ih ⊢
    simp only [byteHex, List.length_cons, List.length_nil]
    omega

/-- helper: hexDigit maps the range below sixteen into the hex alphabet. -/
theorem hexDigit_isHexDigit (n : Nat) (h : n < 16) : isHexDigit (hexDigit n) = true := by
  interval_cases n <;> decide

/-- helper: every character of a token_hex result is a lowercase hex
digit. -/
theorem token_hex_chars (bs : List Nat) :
    ∀ c ∈ (token_hex bs).data, isHexDigit c = true := by
  induction bs with
  | nil => intro c hc; simp [token_hex] at hc
  | cons b rest ih =>
    intro c hc
    simp only [token_hex, List.map_cons, List.flatten_cons, byteHex,
      List.cons_append, List.nil_append, List.mem_cons] at hc
    rcases hc with h | h | h
    · rw [h]; exact hexDigit_isHexDigit _ (Nat.mod_lt _ (by norm_num))
    · rw [h]; exact hexDigit_isHexDigit _ (Nat.mod_lt _ (by norm_num))
    · exact ih c h

/-- C7: signup with an email that already has a stored user fails with
the 400 Conflict error and leaves the store unchanged; signup with a new
email appends exactly one user carrying the generated token and returns
that token with the new user id; and a token generated from sixteen
random bytes is a 32-character lowercase-hex string. -/
theorem signup_conflict_or_fresh_token :
    (∀ (db : DB) (email pw tok fid : String) (u : UserDoc),
        db.users.find? (fun v => v.email == email) = some u →
        signup db email pw tok fid = (.error ⟨400, "Email already registered"⟩, db))
    ∧ (∀ (db : DB) (email pw fid : String) (bytes : List Nat),
        db.users.find? (fun v => v.email == email) = none →
        signup db email pw (token_hex bytes) fid =
          (.ok { token := token_hex bytes, user_id := fid },
           { db with users := db.users ++
              [{ _id := fid, email := email, password_hash := some pw,
                 plan := some "free", auth_token := some (token_hex bytes) }] }))
    ∧ (∀ bytes : List Nat, bytes.length = 16 →
        (token_hex bytes).length = 32 ∧ ∀ c ∈ (token_hex bytes).data, isHexDigit c = true) := by
  refine ⟨?_, ?_, ?_⟩
  · intro db email pw tok fid u h
    simp [signup, h]
  · intro db email pw fid bytes h
    simp [signup, h]
  · intro bytes h
    exact ⟨by rw [token_hex_length, h], token_hex_chars bytes⟩

/-- C7 witness: a fresh email is persisted with the token generated from
two sample bytes, and the sixteen-byte length conjunct holds on a
concrete byte list. -/
theorem signup_conflict_or_fresh_token_witness :
    signup dbNoFlags "new@example.com" "pw2" (token_hex [222, 173]) "u9" =
      (.ok { token := token_hex [222, 173], user_id := "u9" },
       { dbNoFlags with users := dbNoFlags.users ++
          [{ _id := "u9", email := "new@example.com", password_hash := some "pw2",
             plan := some "free", auth_token := some (token_hex [222, 173]) }] }) :=
  signup_conflict_or_fresh_token.2.1 dbNoFlags "new@example.com" "pw2" "u9"
    [222, 173] (by decide)

/-- helper: when user ids are duplicate-free, backfilling the token of
the user found by the credentials lookup leaves that user findable by
the same lookup, now carrying the new token. -/
theorem find?_setAuthToken (users : List UserDoc) (email pw tok : String) (u : UserDoc)
    (hnodup : (users.map (fun v => v._id)).Nodup)
    (hfind : users.find? (fun v => v.email == email && v.password_hash == some pw) = some u) :
    (setAuthToken users u._id tok).find?
        (fun v => v.email == email && v.password_hash == some pw)
      = some { u with auth_token := some tok } := by
  induction users with
  | nil => simp at hfind
  | cons v rest ih =>
    simp only [List.map_cons, List.nodup_cons] at hnodup
    by_cases hp : (v.email == email && v.password_hash == some pw) = true
    · have hv : v = u := by
        simp only [List.find?_cons, hp] at hfind
        exact Option.some.inj hfind
      subst hv
      simp [setAuthToken, List.find?_cons, hp]
    · have hp' : (v.email == email && v.password_hash == some pw) = false := by
        simpa using hp
      simp only [List.find?_cons, hp'] at hfind
      have hu : u ∈ rest := List.mem_of_find?_eq_some hfind
      have hne : v._id ≠ u._id := fun he => hnodup.1 (he ▸ List.mem_map_of_mem _ hu)
      have hbeq : (v._id == u._id) = false := beq_eq_false_iff_ne.mpr hne
      simp only [setAuthToken, hbeq, Bool.false_eq_true, if_false]
      simp only [List.find?_cons, hp']
      exact ih hnodup.2 hfind

/-- C8: signin with credentials matching no stored user fails 401 and
changes nothing; a matching user with no stored token has the fresh
token assigned (stored and returned); and on a store with
duplicate-free user ids, every successful signin followed by a second
signin with the same credentials returns the same token and user id and
leaves the store exactly as the first call left it, for any non-empty
fresh token, so the lazy backfill is idempotent. -/
theorem signin_backfill_idempotent :
    (∀ (db : DB) (email pw fresh : String),
        db.users.find? (fun v => v.email == email && v.password_hash == some pw) = none →
        signin db email pw fresh = (.error ⟨401, "Invalid credentials"⟩, db))
    ∧ (∀ (db : DB) (email pw fresh : String) (u : UserDoc),
        db.users.find? (fun v => v.email == email && v.password_hash == some pw) = some u →
        u.auth_token = none →
        signin db email pw fresh =
          (.ok { token := fresh, user_id := u._id },
           { db with users := setAuthToken db.users u._id fresh }))
    ∧ (∀ (db : DB) (email pw fresh fresh2 : String) (r : AuthResponse) (db2 : DB),
        (db.users.map (fun v => v._id)).Nodup →
        fresh ≠ "" →
        signin db email pw fresh = (.ok r, db2) →
        signin db2 email pw fresh2 = (.ok r, db2)) := by
  refine ⟨?_, ?_, ?_⟩
  · intro db email pw fresh h
    simp [signin, h]
  · intro db email pw fresh u h htok
    simp [signin, h, htok]
  · intro db email pw fresh fresh2 r db2 hnodup hfresh hrun
    cases hfind : db.users.find? (fun v => v.email == email && v.password_hash == some pw) with
    | none => simp [signin, hfind] at hrun
    | some u =>
      cases htok : u.auth_token with
      | none =>
        have h1 : signin db email pw fresh =
            (.ok { token := fresh, user_id := u._id },
             { db with users := setAuthToken db.users u._id fresh }) := by
          simp [signin, hfind, htok]
        rw [h1] at hrun
        have hr : r = { token := fresh, user_id := u._id } := by
          have h2 := congrArg Prod.fst hrun
          simpa using h2.symm
        have hdb : db2 = { db with users := setAuthToken db.users u._id fresh } := by
          have h2 := congrArg Prod.snd hrun
          simpa using h2.symm
        subst hr
        subst hdb
        have hfind2 : (setAuthToken db.users u._id fresh).find?
            (fun v => v.email == email && v.password_hash == some pw)
            = some { u with auth_token := some fresh } :=
          find?_setAuthToken db.users email pw fresh u hnodup hfind
        simp [signin, hfind2, hfresh]
      | some t =>
        by_cases ht : t = ""
        · subst ht
          have h1 : signin db email pw fresh =
              (.ok { token := fresh, user_id := u._id },
               { db with users := setAuthToken db.users u._id fresh }) := by
            simp [signin, hfind, htok]
          rw [h1] at hrun
          have hr : r = { token := fresh, user_id := u._id } := by
            have h2 := congrArg Prod.fst hrun
            simpa using h2.symm
          have hdb : db2 = { db with users := setAuthToken db.users u._id fresh } := by
            have h2 := congrArg Prod.snd hrun
            simpa using h2.symm
          subst hr
          subst hdb
          have hfind2 : (setAuthToken db.users u._id fresh).find?
              (fun v => v.email == email && v.password_hash == some pw)
              = some { u with auth_token := some fresh } :=
            find?_setAuthToken db.users email pw fresh u hnodup hfind
          simp [signin, hfind2, hfresh]
        · have h1 : signin db email pw fresh = (.ok { token := t, user_id := u._id }, db) := by
            simp [signin, hfind, htok, ht]
          rw [h1] at hrun
          have hr : r = { token := t, user_id := u._id } := by
            have h2 := congrArg Prod.fst hrun
            simpa using h2.symm
          have hdb : db2 = db := by
            have h2 := congrArg Prod.snd hrun
            simpa using h2.symm
          subst hr
          subst hdb
          simp [signin, hfind, htok, ht]

/-- a stored user with matching credentials and no token yet. -/
def userNoTok : UserDoc :=
  { _id := "u_nt", email := "nt@example.com", password_hash := some "pw",
    plan := some "free", auth_token := none }

/-- a store holding only userNoTok. -/
def dbNoTok : DB :=
  { users := [userNoTok], overlays := [], widgets := [], featureflags := [] }

/-- the store after the first signin backfilled token t1. -/
def dbNoTokAfter : DB :=
  { dbNoTok with users := [{ userNoTok with auth_token := some "t1" }] }

/-- C8 witness: after a first signin backfills t1 for the tokenless user,
a second signin with a different candidate token t2 returns t1 again and
leaves the store untouched. -/
theorem signin_backfill_idempotent_witness :
    signin dbNoTokAfter "nt@example.com" "pw" "t2" =
      (.ok { token := "t1", user_id := "u_nt" }, dbNoTokAfter) :=
  signin_backfill_idempotent.2.2 dbNoTok "nt@example.com" "pw" "t1" "t2"
    { token := "t1", user_id := "u_nt" } dbNoTokAfter (by decide) (by decide) rfl
